import Mathlib

/-!
Verification of the tui-rain digital-rain widget (`src/lib.rs`).

Modelling conventions:
* Machine integers (u16/u32/u64/u128/usize) are `Nat` with explicit `% 2 ^ w`
  at the operations where the Rust code can wrap (release semantics).
* Operations that can panic in Rust (`%` by zero, slice indexing,
  `char::from_u32(..).unwrap()`) return `Option`; `none` models the panic and
  is propagated through the per-frame pipeline.
* `f64` values are modelled as exact rationals (`ℚ`).  Every float operation
  the widget performs (+, -, *, /, %, max, casts to/from integers) is mapped
  to its exact rational counterpart; `as` casts from f64 to unsigned integers
  use Rust's saturating-truncating semantics.  None of the verdicts below
  depends on f64 rounding error; where a corner (division of a float by zero)
  differs it is noted at the definition and is unreachable in the statements.
* `std::time::Duration` is a nonnegative number of seconds; `as_secs_f64` is
  the identity in this model.
-/

/-- Truncation toward zero of a rational, as Rust f64-to-integer casts do. -/
def ratTrunc (q : ℚ) : Int :=
  if q < 0 then -((-q).floor) else q.floor

/-- Rust `a % b` on f64 (remainder with the sign of `a`, truncated quotient).
At every call site in the widget `a ≥ 0` and `b > 0`.  (For `b = 0` Rust
produces NaN; this model returns `a`, but no call site reaches `b = 0`:
the divisor is `cycle_time_secs = len / speed` with `len ≥ 1` and
`speed ≥ 1/1000`.) -/
def fmod (a b : ℚ) : ℚ :=
  a - b * (ratTrunc (a / b) : ℚ)

/-- Rust `expr as u16` applied to an f64: truncate toward zero, saturate to
`[0, 65535]`. -/
def f64toU16 (q : ℚ) : Nat :=
  min (ratTrunc q).toNat 65535

/-- Rust `expr as u32` applied to an f64: truncate toward zero, saturate to
`[0, 2^32 - 1]`. -/
def f64toU32 (q : ℚ) : Nat :=
  min (ratTrunc q).toNat 4294967295

/-- Rust `expr as usize` applied to an f64 (64-bit usize): truncate toward
zero, saturate to `[0, 2^64 - 1]`. -/
def f64toUsize (q : ℚ) : Nat :=
  min (ratTrunc q).toNat 18446744073709551615

/-- Checked `a % b` on unsigned integers: Rust panics when `b = 0`. -/
def remChecked (a b : Nat) : Option Nat :=
  if b = 0 then none else some (a % b)

/-- u16 wrap. -/
def wrap16 (n : Nat) : Nat := n % 65536

/-- u64/usize wrap (release semantics). -/
def wrap64 (n : Nat) : Nat := n % 18446744073709551616

/-- Wrapping u16 addition (release semantics), operands already `< 65536`. -/
def add16 (a b : Nat) : Nat := (a + b) % 65536

/-- Wrapping u16 subtraction (release semantics), operands already `< 65536`. -/
def sub16 (a b : Nat) : Nat := (a % 65536 + 65536 - b % 65536) % 65536

/-- `u32::rotate_right` (the rotation amount is `< 32` at every call site). -/
def rotr32 (x n : Nat) : Nat :=
  (x / 2 ^ n + x % 2 ^ n * 2 ^ (32 - n)) % 4294967296

/-- `u64::rotate_right` (the rotation amount is `< 64` at every call site). -/
def rotr64 (x n : Nat) : Nat :=
  (x / 2 ^ n + x % 2 ^ n * 2 ^ (64 - n)) % 18446744073709551616

/-- State of `rand_pcg::Pcg64Mcg`: a 128-bit multiplicative congruential
generator with the XSL-RR output function. -/
structure Pcg where
  state : Nat
deriving DecidableEq

/-- One step of the PCG32 LCG used by `rand_core`'s default
`SeedableRng::seed_from_u64` to expand a 64-bit seed into seed bytes. -/
def pcg32Step (state : Nat) : Nat :=
  (state * 6364136223846793005 + 11634580027462260723) % 18446744073709551616

/-- The PCG32 output function used by `seed_from_u64`:
`xorshifted = (((state >> 18) ^ state) >> 27) as u32`,
`rot = (state >> 59) as u32`, output `xorshifted.rotate_right(rot)`. -/
def pcg32Out (state : Nat) : Nat :=
  rotr32 ((Nat.xor (state / 2 ^ 18) state / 2 ^ 27) % 4294967296) (state / 2 ^ 59)

/-- `Pcg64Mcg::seed_from_u64`: four PCG32 outputs written little-endian into a
16-byte seed, read as a little-endian u128, then `| 1` to force an odd state
(`Pcg64Mcg::new`). -/
def pcgSeedFromU64 (seed : Nat) : Pcg :=
  let s1 := pcg32Step (seed % 18446744073709551616)
  let s2 := pcg32Step s1
  let s3 := pcg32Step s2
  let s4 := pcg32Step s3
  let st := pcg32Out s1 + pcg32Out s2 * 2 ^ 32 + pcg32Out s3 * 2 ^ 64 +
    pcg32Out s4 * 2 ^ 96
  ⟨2 * (st / 2) + 1⟩

/-- `Pcg64Mcg::next_u64`: multiply the 128-bit state by the MCG multiplier,
then apply XSL-RR: rotate `(state >> 64) ^ (state as u64)` right by
`state >> 122`. -/
def Pcg.next (g : Pcg) : Nat × Pcg :=
  let st := g.state * 0x2360ed051fc65da44385df649fccf645 %
    340282366920938463463374607431768211456
  (rotr64 (Nat.xor (st / 2 ^ 64) (st % 2 ^ 64)) (st / 2 ^ 122), ⟨st⟩)

/-- `ratatui::layout::Rect`, reduced to the two fields the widget reads.
Both are u16 in the source, hence `< 65536`; the u16 arithmetic on them is
modelled with explicit wraps. -/
structure Rect where
  width : Nat
  height : Nat
deriving DecidableEq

/-- The density of the rain (`RainDensity`). -/
inductive RainDensity where
  | absolute (num_drops : Nat)
  | relative (sparseness : Nat)
  | torrential
  | showering
  | sprinkling
deriving DecidableEq

/-- The `RainDensity::Relative { sparseness }` arm of `num_drops`:
zero drops when `sparseness == 0`, else `(width * height) as usize /
sparseness`.  `area.width * area.height` is a u16 multiplication in the
source and wraps (release semantics) when the product reaches 65536. -/
def relativeNumDrops (sparseness : Nat) (area : Rect) : Nat :=
  if sparseness = 0 then 0 else wrap16 (area.width * area.height) / sparseness

/-- `RainDensity::num_drops`: the absolute number of drops given an area.
The preset arms delegate to `Relative` with their fixed sparseness. -/
def RainDensity.num_drops : RainDensity → Rect → Nat
  | .absolute n, _ => n
  | .relative s, area => relativeNumDrops s area
  | .torrential, area => relativeNumDrops 20 area
  | .showering, area => relativeNumDrops 50 area
  | .sprinkling, area => relativeNumDrops 100 area

/-- The speed of the rain (`RainSpeed`). -/
inductive RainSpeed where
  | absolute (speed : ℚ)
  | beating
  | pouring
  | trickling
deriving DecidableEq

/-- `RainSpeed::speed`: the absolute speed in pixels / second. -/
def RainSpeed.speed : RainSpeed → ℚ
  | .absolute v => v
  | .beating => 20
  | .pouring => 10
  | .trickling => 5

/-- A character set for the rain (`CharacterSet`).  Characters are modelled
by their code points. -/
inductive CharacterSet where
  | explicit (options : List Nat)
  | unicodeRange (first len : Nat)
  | halfKana
  | lowercase
deriving DecidableEq

/-- `char::from_u32(n)`: `some` exactly on valid scalar values. -/
def charFromU32 (n : Nat) : Option Nat :=
  if n < 0xD800 ∨ (0xDFFF < n ∧ n ≤ 0x10FFFF) then some n else none

/-- The `CharacterSet::UnicodeRange` arm of `get`:
`char::from_u32((seed % len) + start).unwrap()` in u32 arithmetic (panic when
`len = 0`, modulus by zero, or when the code point is not a valid char). -/
def unicodeRangeGet (first len seed : Nat) : Option Nat :=
  if len = 0 then none else charFromU32 ((seed % len + first) % 4294967296)

/-- `CharacterSet::get`.  `Explicit` indexes `options[seed % options.len()]`
(panic on an empty list: `%` by zero, modelled by `none` from the
out-of-range lookup).  The presets delegate to their `UnicodeRange`
equivalents. -/
def CharacterSet.get : CharacterSet → Nat → Option Nat
  | .explicit options, seed => options[seed % options.length]?
  | .unicodeRange first len, seed => unicodeRangeGet first len seed
  | .halfKana, seed => unicodeRangeGet 0xFF66 56 seed
  | .lowercase, seed => unicodeRangeGet 0x61 26 seed

/-- `CharacterSet::size`. -/
def CharacterSet.size : CharacterSet → Nat
  | .explicit options => options.length
  | .unicodeRange _ len => len
  | .halfKana => 56
  | .lowercase => 26

/-- `ratatui::style::Color`, reduced to the variants the widget names plus a
catch-all for user-chosen colors. -/
inductive Color where
  | white
  | lightGreen
  | lightBlue
  | custom (n : Nat)
deriving DecidableEq

/-- `ratatui::style::Style`, reduced to the components the widget touches:
foreground color and the BOLD / DIM modifiers.  `some true` models the
modifier being added (`bold()` / `dim()`), `some false` its removal
(`not_bold()` / `not_dim()`), `none` untouched (`Style::default()`). -/
structure Style where
  fg : Option Color
  bold : Option Bool
  dim : Option Bool
deriving DecidableEq

/-- `Style::default()`. -/
def Style.base : Style := { fg := none, bold := none, dim := none }

/-- A Glyph to be rendered on the screen (struct `Glyph`). -/
structure Glyph where
  x : Nat
  y : Nat
  age : ℚ
  content : Nat
  style : Style
deriving DecidableEq

/-- Map a uniform random u64 to a uniform random f64 in the range
`[lower, upper)` (function `uniform`): `seed as f64 / u64::MAX as f64`
scaled linearly. -/
def uniform (seed : Nat) (lower upper : ℚ) : ℚ :=
  (seed : ℚ) / 18446744073709551615 * (upper - lower) + lower

/-- The widget configuration (struct `Rain`).  Durations are seconds. -/
structure Rain where
  elapsed : ℚ
  seed : Nat
  rain_density : RainDensity
  rain_speed : RainSpeed
  rain_speed_variance : ℚ
  tail_lifespan : ℚ
  color : Color
  noise_interval : ℚ
  character_set : CharacterSet
deriving DecidableEq

/-- `Rain::new_matrix`: defaults for matrix rain. -/
def Rain.new_matrix (elapsed : ℚ) : Rain :=
  { elapsed := elapsed
    seed := 1234
    rain_density := RainDensity.showering
    rain_speed := RainSpeed.trickling
    rain_speed_variance := 1 / 2
    tail_lifespan := 2
    color := Color.lightGreen
    noise_interval := 5
    character_set := CharacterSet.halfKana }

/-- `Rain::new_rain`: defaults for standard rain. -/
def Rain.new_rain (elapsed : ℚ) : Rain :=
  { elapsed := elapsed
    seed := 1234
    rain_density := RainDensity.torrential
    rain_speed := RainSpeed.beating
    rain_speed_variance := 1 / 2
    tail_lifespan := 1 / 4
    color := Color.lightBlue
    noise_interval := 1
    character_set := CharacterSet.unicodeRange 0x7c 1 }

/-- `Rain::new_snow`: defaults for snow. -/
def Rain.new_snow (elapsed : ℚ) : Rain :=
  { elapsed := elapsed
    seed := 1234
    rain_density := RainDensity.torrential
    rain_speed := RainSpeed.absolute 2
    rain_speed_variance := 1 / 10
    tail_lifespan := 1 / 2
    color := Color.white
    noise_interval := 1
    character_set := CharacterSet.unicodeRange 0x2a 1 }

/-- `Rain::new_emoji_soup`: defaults for emoji soup. -/
def Rain.new_emoji_soup (elapsed : ℚ) : Rain :=
  { elapsed := elapsed
    seed := 1234
    rain_density := RainDensity.torrential
    rain_speed := RainSpeed.pouring
    rain_speed_variance := 1 / 10
    tail_lifespan := 1 / 2
    color := Color.white
    noise_interval := 1
    character_set := CharacterSet.unicodeRange 0x1f600 80 }

/-- `Rain::with_seed`. -/
def Rain.with_seed (r : Rain) (seed : Nat) : Rain :=
  { r with seed := seed }

/-- `Rain::with_rain_density`. -/
def Rain.with_rain_density (r : Rain) (rain_density : RainDensity) : Rain :=
  { r with rain_density := rain_density }

/-- `Rain::with_rain_speed`. -/
def Rain.with_rain_speed (r : Rain) (rain_speed : RainSpeed) : Rain :=
  { r with rain_speed := rain_speed }

/-- `Rain::with_rain_speed_variance`. -/
def Rain.with_rain_speed_variance (r : Rain) (rain_speed_variance : ℚ) : Rain :=
  { r with rain_speed_variance := rain_speed_variance }

/-- `Rain::with_tail_lifespan`. -/
def Rain.with_tail_lifespan (r : Rain) (tail_lifespan : ℚ) : Rain :=
  { r with tail_lifespan := tail_lifespan }

/-- `Rain::with_color`. -/
def Rain.with_color (r : Rain) (color : Color) : Rain :=
  { r with color := color }

/-- `Rain::with_noise_interval`. -/
def Rain.with_noise_interval (r : Rain) (noise_interval : ℚ) : Rain :=
  { r with noise_interval := noise_interval }

/-- `Rain::with_character_set`.  Assigns the field; the source performs no
validation of the supplied set. -/
def Rain.with_character_set (r : Rain) (character_set : CharacterSet) : Rain :=
  { r with character_set := character_set }

/-- `Rain::build_rng`: seed the portable reproducible rng from `self.seed`. -/
def Rain.build_rng (r : Rain) : Pcg :=
  pcgSeedFromU64 r.seed

/-- The per-drop speed: `uniform(entropy[0], s*(1-v), s*(1+v)).max(1e-3)`.
`e0` is `entropy[0]`. -/
def dropSpeed (e0 : Nat) (rain_speed rain_speed_variance : ℚ) : ℚ :=
  max (uniform e0 (rain_speed * (1 - rain_speed_variance))
    (rain_speed * (1 + rain_speed_variance))) (1 / 1000)

/-- `cycle_time_secs = entropy.len() as f64 / rain_speed` (the per-drop
speed). -/
def cycleTime (entropy : List Nat) (rain_speed rain_speed_variance : ℚ) : ℚ :=
  (entropy.length : ℚ) / dropSpeed (entropy.headD 0) rain_speed rain_speed_variance

/-- `initial_cycle_offset_secs = uniform(entropy[0], 0.0, cycle_time_secs)`. -/
def initialCycleOffset (entropy : List Nat) (rain_speed rain_speed_variance : ℚ) : ℚ :=
  uniform (entropy.headD 0) 0 (cycleTime entropy rain_speed rain_speed_variance)

/-- The body of the `(0..drop_len).filter_map(|y_offset| ...)` closure in
`build_drop`.  The outer `Option` is panic propagation (`none` = panic), the
inner one is the `filter_map` result.  The derived per-drop quantities
(`rain_speed`, `cycle_time_secs`, `initial_cycle_offset_secs`, `head_y`,
`track_len`, `drop_len`) are received from `build_drop`. -/
def glyphForOffset (character_set : CharacterSet) (entropy : List Nat)
    (elapsed : ℚ) (width height : Nat)
    (rain_speed cycle_time_secs initial_cycle_offset_secs : ℚ)
    (head_y track_len drop_len : Nat) (noise_interval : ℚ) (color : Color)
    (y_offset : Nat) : Option (Option Glyph) :=
  -- age = y_offset as f64 / rain_speed; if age > elapsed, filtered out
  let age : ℚ := (y_offset : ℚ) / rain_speed
  if age > elapsed then some none
  else
    -- cycle_num = ((elapsed + initial_cycle_offset_secs - age) / cycle_time_secs) as usize
    let cycle_num :=
      f64toUsize ((elapsed + initial_cycle_offset_secs - age) / cycle_time_secs)
    if cycle_num = 0 then some none
    else
      -- x_entropy = entropy[cycle_num % entropy.len()]
      match remChecked cycle_num entropy.length with
      | none => none
      | some i =>
        match entropy[i]? with
        | none => none
        | some x_entropy =>
          -- x = (x_entropy % width as u64) as u16
          match remChecked x_entropy width with
          | none => none
          | some xw =>
            let x := wrap16 xw
            -- y = (head_y + track_len - y_offset) % track_len, u16 arithmetic
            match remChecked (sub16 (add16 head_y track_len) y_offset) track_len with
            | none => none
            | some y =>
              if y ≥ height then some none
              else
                -- time_offset = uniform(entropy[y], 0, noise_interval * size)
                match entropy[y]? with
                | none => none
                | some ey =>
                  let time_offset :=
                    uniform ey 0 (noise_interval * (character_set.size : ℚ))
                  -- content = get(((time_offset + elapsed) / noise_interval) as u32)
                  match character_set.get
                      (f64toU32 ((time_offset + elapsed) / noise_interval)) with
                  | none => none
                  | some content =>
                    -- first glyph (age = 0) is white, the rest take the color
                    let s1 :=
                      if age > 0 then { Style.base with fg := some color }
                      else { Style.base with fg := some Color.white }
                    -- lowest third bold, highest third dim (u16 arithmetic)
                    let s2 :=
                      if y_offset < drop_len / 3 then
                        { s1 with bold := some true, dim := some false }
                      else if y_offset > wrap16 (drop_len * 2) / 3 then
                        { s1 with dim := some true, bold := some false }
                      else
                        { s1 with bold := some false, dim := some false }
                    some (some ⟨x, y, age, content, s2⟩)

/-- `Option`-valued map over a list, propagating the first panic, in order. -/
def mapMList {α β : Type} (f : α → Option β) : List α → Option (List β)
  | [] => some []
  | a :: t =>
    match f a with
    | none => none
    | some b =>
      match mapMList f t with
      | none => none
      | some bs => some (b :: bs)

/-- `build_drop`: build a drop from the given consistent initial entropy
state.  Argument order follows the source. -/
def build_drop (character_set : CharacterSet) (entropy : List Nat)
    (elapsed : ℚ) (width height : Nat)
    (rain_speed : ℚ) (rain_speed_variance : ℚ)
    (tail_lifespan : ℚ) (noise_interval : ℚ) (color : Color) :
    Option (List Glyph) :=
  -- Later code assumes at least 1 entry in the entropy vec
  if entropy.length = 0 then some []
  else
    -- track_len = entropy.len() as u16 (truncating cast)
    let track_len := wrap16 entropy.length
    let speed := dropSpeed (entropy.headD 0) rain_speed rain_speed_variance
    let cycle_time_secs := cycleTime entropy rain_speed rain_speed_variance
    let initial_cycle_offset_secs :=
      initialCycleOffset entropy rain_speed rain_speed_variance
    -- current_cycle_offset_secs = (elapsed + initial_cycle_offset_secs) % cycle_time_secs
    let current_cycle_offset_secs :=
      fmod (elapsed + initial_cycle_offset_secs) cycle_time_secs
    -- head_y = (current_cycle_offset_secs * rain_speed) as u16
    let head_y := f64toU16 (current_cycle_offset_secs * speed)
    -- drop_len = ((rain_speed * tail_lifespan) as u16).min(height)
    let drop_len := min (f64toU16 (speed * tail_lifespan)) height
    match mapMList
        (glyphForOffset character_set entropy elapsed width height speed
          cycle_time_secs initial_cycle_offset_secs head_y track_len drop_len
          noise_interval color)
        (List.range drop_len) with
    | none => none
    | some gs => some (gs.filterMap id)

/-- Draw `n` successive `next_u64` values. -/
def nextN : Nat → Pcg → List Nat × Pcg
  | 0, g => ([], g)
  | n + 1, g =>
    let (r, g1) := g.next
    let (rs, g2) := nextN n g1
    (r :: rs, g2)

/-- The `drop_track_lens` loop: for each of `n` drops draw
`area.height as u64 * 3 / 2 + rng.next_u64() % area.height as u64`
(panic when `height = 0`: `%` by zero). -/
def genTrackLens : Nat → Nat → Pcg → Option (List Nat × Pcg)
  | 0, _, g => some ([], g)
  | n + 1, h, g =>
    let (r, g1) := g.next
    match remChecked r h with
    | none => none
    | some m =>
      match genTrackLens n h g1 with
      | none => none
      | some (ls, g2) => some ((h * 3 / 2 + m) :: ls, g2)

/-- The `entropy` loop: one fresh vector of `next_u64` values per track
length. -/
def genEntropy : List Nat → Pcg → List (List Nat) × Pcg
  | [], g => ([], g)
  | t :: ts, g =>
    let (e, g1) := nextN t g
    let (es, g2) := genEntropy ts g1
    (e :: es, g2)

/-- The track-length vector drawn by `render` together with the rng that
generated it: `num_drops * 2` lengths.  The doubling is a usize
multiplication in the source and wraps at `2 ^ 64` (release semantics). -/
def Rain.dropTrackLens (r : Rain) (area : Rect) : Option (List Nat × Pcg) :=
  genTrackLens (wrap64 (r.rain_density.num_drops area * 2)) area.height
    r.build_rng

/-- Stable insertion of a glyph into an age-sorted list: the new glyph goes
after every glyph whose age is `≤` its own. -/
def insertAge (g : Glyph) : List Glyph → List Glyph
  | [] => [g]
  | h :: t => if h.age ≤ g.age then h :: insertAge g t else g :: h :: t

/-- `glyphs.sort_by(|a, b| a.age.partial_cmp(&b.age).unwrap_or(Equal))`.
Rust's `sort_by` is a stable ascending sort and ages are never NaN in the
rational model, so the result is the unique stable ascending-by-age
permutation; this left fold of stable insertions computes exactly that. -/
def sortGlyphs (l : List Glyph) : List Glyph :=
  l.foldl (fun acc g => insertAge g acc) []

/-- The glyph list computed by `Widget::render` for `Rain`, after the merge
and the ascending sort by age and just before the buffer writes.  `none`
models a panic anywhere in the frame computation. -/
def Rain.renderGlyphs (r : Rain) (area : Rect) : Option (List Glyph) :=
  let elapsed := r.elapsed
  match r.dropTrackLens area with
  | none => none
  | some (lens, g1) =>
    let entropy := (genEntropy lens g1).1
    match mapMList
        (fun drop_entropy =>
          build_drop r.character_set drop_entropy elapsed area.width
            area.height r.rain_speed.speed r.rain_speed_variance
            r.tail_lifespan r.noise_interval r.color)
        entropy with
    | none => none
    | some gss => some (sortGlyphs gss.flatten)

/-- One cell of the ratatui buffer: its character (code point) and style. -/
structure Cell where
  content : Nat
  style : Style

/-- `Style::patch` restricted to the modelled components: fields set in the
incoming style override, unset fields keep the cell's previous value. -/
def Style.patch (s incoming : Style) : Style :=
  { fg := incoming.fg.orElse (fun _ => s.fg)
    bold := incoming.bold.orElse (fun _ => s.bold)
    dim := incoming.dim.orElse (fun _ => s.dim) }

/-- The buffer, as a function from (x, y) to the cell contents. -/
def Buffer : Type := Nat → Nat → Cell

/-- A buffer of blank cells (the space character, default style). -/
def emptyBuffer : Buffer := fun _ _ => { content := 0x20, style := Style.base }

/-- `buf[(x, y)].set_char(c); buf[(x, y)].set_style(s)` for one glyph. -/
def Buffer.put (b : Buffer) (g : Glyph) : Buffer :=
  fun i j =>
    if i = g.x ∧ j = g.y then
      { content := g.content, style := (b i j).style.patch g.style }
    else b i j

/-- The buffer-write loop of `render`: write every glyph in sorted order. -/
def writeGlyphs (glyphs : List Glyph) (buf : Buffer) : Buffer :=
  glyphs.foldl Buffer.put buf

/-- `Widget::render` for `Rain`: compute the frame's glyphs and write them
into the buffer.  `none` models a panic. -/
def Rain.render (r : Rain) (area : Rect) (buf : Buffer) : Option Buffer :=
  (r.renderGlyphs area).map (fun gs => writeGlyphs gs buf)

/-! ## Helper lemmas -/

theorem remChecked_lt {a b c : Nat} (h : remChecked a b = some c) : c < b := by
  unfold remChecked at h
  split at h
  · exact absurd h (by simp)
  · cases h
    exact Nat.mod_lt _ (Nat.pos_of_ne_zero (by assumption))

theorem mem_insertAge {a g : Glyph} :
    ∀ {l : List Glyph}, a ∈ insertAge g l ↔ a = g ∨ a ∈ l := by
  intro l
  induction l with
  | nil => simp [insertAge]
  | cons h t ih =>
    unfold insertAge
    split
    · simp only [List.mem_cons, ih]
      tauto
    · simp only [List.mem_cons]

theorem mem_foldl_insertAge {a : Glyph} :
    ∀ (l acc : List Glyph),
      a ∈ l.foldl (fun ac g => insertAge g ac) acc ↔ a ∈ l ∨ a ∈ acc := by
  intro l
  induction l with
  | nil => simp
  | cons h t ih =>
    intro acc
    simp only [List.foldl_cons, ih, mem_insertAge, List.mem_cons]
    tauto

theorem mem_sortGlyphs {a : Glyph} {l : List Glyph} :
    a ∈ sortGlyphs l ↔ a ∈ l := by
  unfold sortGlyphs
  simp [mem_foldl_insertAge]

theorem f64toUsize_ne_zero_floor {q : ℚ} (h : f64toUsize q ≠ 0) :
    Rat.floor q ≠ 0 := by
  unfold f64toUsize ratTrunc at h
  split at h
  · exfalso
    apply h
    have hq : (0 : ℚ) ≤ -q := by linarith
    have hf : 0 ≤ (-q).floor := Rat.le_floor.mpr (by exact_mod_cast hq)
    have : (-(-q).floor).toNat = 0 := Int.toNat_eq_zero.mpr (by omega)
    simp [this]
  · intro hf
    apply h
    simp [hf]

theorem glyphForOffset_some {cs : CharacterSet} {entropy : List Nat}
    {elapsed : ℚ} {width height : Nat} {sp ct off : ℚ} {hy tl dl : Nat}
    {ni : ℚ} {col : Color} {k : Nat} {g : Glyph}
    (h : glyphForOffset cs entropy elapsed width height sp ct off hy tl dl
      ni col k = some (some g)) :
    g.x < width ∧ g.y < height ∧ g.age = (k : ℚ) / sp ∧
      f64toUsize ((elapsed + off - (k : ℚ) / sp) / ct) ≠ 0 := by
  simp only [glyphForOffset] at h
  repeat' split at h
  any_goals first
    | exact Option.noConfusion h
    | exact Option.noConfusion (Option.some.inj h)
  all_goals (
    have hg := Option.some.inj (Option.some.inj h)
    subst hg
    exact ⟨Nat.lt_of_le_of_lt (Nat.mod_le _ _) (remChecked_lt (by assumption)),
      Nat.lt_of_not_le (by assumption), rfl, by assumption⟩)

theorem mapMList_mem {α β : Type} {f : α → Option β} :
    ∀ {l : List α} {ys : List β}, mapMList f l = some ys →
      ∀ {b : β}, b ∈ ys → ∃ a ∈ l, f a = some b := by
  intro l
  induction l with
  | nil =>
    intro ys hm b hb
    unfold mapMList at hm
    cases hm
    simp at hb
  | cons a t ih =>
    intro ys hm b hb
    unfold mapMList at hm
    split at hm
    · exact absurd hm (by simp)
    · split at hm
      · exact absurd hm (by simp)
      · cases hm
        rcases List.mem_cons.mp hb with rfl | hb2
        · exact ⟨a, List.mem_cons_self _ _, by assumption⟩
        · obtain ⟨a2, ha2, hfa2⟩ := ih (by assumption) hb2
          exact ⟨a2, List.mem_cons_of_mem _ ha2, hfa2⟩

theorem build_drop_mem {cs : CharacterSet} {entropy : List Nat} {elapsed : ℚ}
    {w h : Nat} {s v tl ni : ℚ} {col : Color} {gs : List Glyph} {g : Glyph}
    (hgs : build_drop cs entropy elapsed w h s v tl ni col = some gs)
    (hg : g ∈ gs) :
    ∃ hy trl dl k,
      glyphForOffset cs entropy elapsed w h
        (dropSpeed (entropy.headD 0) s v) (cycleTime entropy s v)
        (initialCycleOffset entropy s v) hy trl dl ni col k
        = some (some g) := by
  simp only [build_drop] at hgs
  split at hgs
  · cases hgs
    simp at hg
  · split at hgs
    · exact Option.noConfusion hgs
    · cases hgs
      obtain ⟨o, ho, hog⟩ := List.mem_filterMap.mp hg
      obtain ⟨k, _, hk⟩ := mapMList_mem (by assumption) ho
      subst hog
      exact ⟨_, _, _, k, hk⟩

theorem renderGlyphs_mem {r : Rain} {area : Rect} {gs : List Glyph} {g : Glyph}
    (hgs : r.renderGlyphs area = some gs) (hg : g ∈ gs) :
    ∃ de dgs,
      build_drop r.character_set de r.elapsed area.width area.height
        r.rain_speed.speed r.rain_speed_variance r.tail_lifespan
        r.noise_interval r.color = some dgs ∧ g ∈ dgs := by
  simp only [Rain.renderGlyphs] at hgs
  split at hgs
  · exact Option.noConfusion hgs
  · split at hgs
    · exact Option.noConfusion hgs
    · cases hgs
      obtain ⟨dgs, hdgs, hgin⟩ := List.mem_flatten.mp (mem_sortGlyphs.mp hg)
      obtain ⟨de, _, hde⟩ := mapMList_mem (by assumption) hdgs
      exact ⟨de, dgs, hde, hgin⟩

/-! ## Claims -/

/-- Claim C1: for every fixed seed, configuration, elapsed time, and surface
size, two independent invocations of render produce byte-identical glyph
sets.  Stated as: any two `Rain` values that agree on every configuration
field (however they were constructed) produce equal glyph lists on the same
surface; each invocation builds its own rng from the seed and shares no
state with the other. -/
theorem render_deterministic (r1 r2 : Rain) (area : Rect)
    (he : r1.elapsed = r2.elapsed) (hs : r1.seed = r2.seed)
    (hd : r1.rain_density = r2.rain_density)
    (hsp : r1.rain_speed = r2.rain_speed)
    (hv : r1.rain_speed_variance = r2.rain_speed_variance)
    (ht : r1.tail_lifespan = r2.tail_lifespan)
    (hc : r1.color = r2.color)
    (hn : r1.noise_interval = r2.noise_interval)
    (hcs : r1.character_set = r2.character_set) :
    r1.renderGlyphs area = r2.renderGlyphs area := by
  obtain ⟨e1, s1, d1, sp1, v1, t1, c1, n1, cs1⟩ := r1
  obtain ⟨e2, s2, d2, sp2, v2, t2, c2, n2, cs2⟩ := r2
  simp only at he hs hd hsp hv ht hc hn hcs
  subst he hs hd hsp hv ht hc hn hcs
  rfl

/-- Witness for C1: two configurations built through different setter chains
but with identical fields render identical glyph lists. -/
theorem render_deterministic_witness :
    (((Rain.new_matrix 2).with_color Color.lightGreen).with_seed 99).renderGlyphs
        ⟨5, 5⟩ =
      ((Rain.new_matrix 2).with_seed 99).renderGlyphs ⟨5, 5⟩ :=
  render_deterministic _ _ _ rfl rfl rfl rfl rfl rfl rfl rfl rfl

/-- Claim C10: each builder setter changes only its named configuration field
and leaves every other field of the `Rain` value, including `elapsed`,
unchanged. -/
theorem setters_change_only_named_field (r : Rain) (s : Nat) (d : RainDensity)
    (sp : RainSpeed) (v t ni : ℚ) (c : Color) (cs : CharacterSet) :
    ((r.with_seed s).seed = s ∧ (r.with_seed s).elapsed = r.elapsed ∧
      (r.with_seed s).rain_density = r.rain_density ∧
      (r.with_seed s).rain_speed = r.rain_speed ∧
      (r.with_seed s).rain_speed_variance = r.rain_speed_variance ∧
      (r.with_seed s).tail_lifespan = r.tail_lifespan ∧
      (r.with_seed s).color = r.color ∧
      (r.with_seed s).noise_interval = r.noise_interval ∧
      (r.with_seed s).character_set = r.character_set) ∧
    ((r.with_rain_density d).rain_density = d ∧
      (r.with_rain_density d).elapsed = r.elapsed ∧
      (r.with_rain_density d).seed = r.seed ∧
      (r.with_rain_density d).rain_speed = r.rain_speed ∧
      (r.with_rain_density d).rain_speed_variance = r.rain_speed_variance ∧
      (r.with_rain_density d).tail_lifespan = r.tail_lifespan ∧
      (r.with_rain_density d).color = r.color ∧
      (r.with_rain_density d).noise_interval = r.noise_interval ∧
      (r.with_rain_density d).character_set = r.character_set) ∧
    ((r.with_rain_speed sp).rain_speed = sp ∧
      (r.with_rain_speed sp).elapsed = r.elapsed ∧
      (r.with_rain_speed sp).seed = r.seed ∧
      (r.with_rain_speed sp).rain_density = r.rain_density ∧
      (r.with_rain_speed sp).rain_speed_variance = r.rain_speed_variance ∧
      (r.with_rain_speed sp).tail_lifespan = r.tail_lifespan ∧
      (r.with_rain_speed sp).color = r.color ∧
      (r.with_rain_speed sp).noise_interval = r.noise_interval ∧
      (r.with_rain_speed sp).character_set = r.character_set) ∧
    ((r.with_rain_speed_variance v).rain_speed_variance = v ∧
      (r.with_rain_speed_variance v).elapsed = r.elapsed ∧
      (r.with_rain_speed_variance v).seed = r.seed ∧
      (r.with_rain_speed_variance v).rain_density = r.rain_density ∧
      (r.with_rain_speed_variance v).rain_speed = r.rain_speed ∧
      (r.with_rain_speed_variance v).tail_lifespan = r.tail_lifespan ∧
      (r.with_rain_speed_variance v).color = r.color ∧
      (r.with_rain_speed_variance v).noise_interval = r.noise_interval ∧
      (r.with_rain_speed_variance v).character_set = r.character_set) ∧
    ((r.with_tail_lifespan t).tail_lifespan = t ∧
      (r.with_tail_lifespan t).elapsed = r.elapsed ∧
      (r.with_tail_lifespan t).seed = r.seed ∧
      (r.with_tail_lifespan t).rain_density = r.rain_density ∧
      (r.with_tail_lifespan t).rain_speed = r.rain_speed ∧
      (r.with_tail_lifespan t).rain_speed_variance = r.rain_speed_variance ∧
      (r.with_tail_lifespan t).color = r.color ∧
      (r.with_tail_lifespan t).noise_interval = r.noise_interval ∧
      (r.with_tail_lifespan t).character_set = r.character_set) ∧
    ((r.with_color c).color = c ∧
      (r.with_color c).elapsed = r.elapsed ∧
      (r.with_color c).seed = r.seed ∧
      (r.with_color c).rain_density = r.rain_density ∧
      (r.with_color c).rain_speed = r.rain_speed ∧
      (r.with_color c).rain_speed_variance = r.rain_speed_variance ∧
      (r.with_color c).tail_lifespan = r.tail_lifespan ∧
      (r.with_color c).noise_interval = r.noise_interval ∧
      (r.with_color c).character_set = r.character_set) ∧
    ((r.with_noise_interval ni).noise_interval = ni ∧
      (r.with_noise_interval ni).elapsed = r.elapsed ∧
      (r.with_noise_interval ni).seed = r.seed ∧
      (r.with_noise_interval ni).rain_density = r.rain_density ∧
      (r.with_noise_interval ni).rain_speed = r.rain_speed ∧
      (r.with_noise_interval ni).rain_speed_variance = r.rain_speed_variance ∧
      (r.with_noise_interval ni).tail_lifespan = r.tail_lifespan ∧
      (r.with_noise_interval ni).color = r.color ∧
      (r.with_noise_interval ni).character_set = r.character_set) ∧
    ((r.with_character_set cs).character_set = cs ∧
      (r.with_character_set cs).elapsed = r.elapsed ∧
      (r.with_character_set cs).seed = r.seed ∧
      (r.with_character_set cs).rain_density = r.rain_density ∧
      (r.with_character_set cs).rain_speed = r.rain_speed ∧
      (r.with_character_set cs).rain_speed_variance = r.rain_speed_variance ∧
      (r.with_character_set cs).tail_lifespan = r.tail_lifespan ∧
      (r.with_character_set cs).color = r.color ∧
      (r.with_character_set cs).noise_interval = r.noise_interval) :=
  ⟨⟨rfl, rfl, rfl, rfl, rfl, rfl, rfl, rfl, rfl⟩,
    ⟨rfl, rfl, rfl, rfl, rfl, rfl, rfl, rfl, rfl⟩,
    ⟨rfl, rfl, rfl, rfl, rfl, rfl, rfl, rfl, rfl⟩,
    ⟨rfl, rfl, rfl, rfl, rfl, rfl, rfl, rfl, rfl⟩,
    ⟨rfl, rfl, rfl, rfl, rfl, rfl, rfl, rfl, rfl⟩,
    ⟨rfl, rfl, rfl, rfl, rfl, rfl, rfl, rfl, rfl⟩,
    ⟨rfl, rfl, rfl, rfl, rfl, rfl, rfl, rfl, rfl⟩,
    ⟨rfl, rfl, rfl, rfl, rfl, rfl, rfl, rfl, rfl⟩⟩

/-- Counterexample to claim C5 as stated: on a 256 × 256 surface with
sparseness 1 the claimed drop count is `⌊width·height / sparseness⌋ = 65536`,
but the u16 product `width * height` wraps to 0, so the code resolves 0
drops. -/
theorem density_overflow_counterexample :
    (RainDensity.relative 1).num_drops ⟨256, 256⟩ = 0 ∧
      (RainDensity.relative 1).num_drops ⟨256, 256⟩ ≠ 256 * 256 / 1 := by
  constructor
  · rfl
  · decide

/-- Claim C5, amended: density resolution is as claimed — `Absolute{n} ⇒ n`,
`Relative{0} ⇒ 0`, presets ≡ `Relative` with sparseness 20 / 50 / 100 —
and `Relative{sparseness > 0} ⇒ ⌊width·height / sparseness⌋` provided the
u16 product `width·height` does not overflow (`width·height < 65536`). -/
theorem density_resolution (area : Rect) (n s : Nat) (hs : s ≠ 0)
    (hov : area.width * area.height < 65536) :
    (RainDensity.absolute n).num_drops area = n ∧
    (RainDensity.relative s).num_drops area = area.width * area.height / s ∧
    (RainDensity.relative 0).num_drops area = 0 ∧
    RainDensity.torrential.num_drops area
      = (RainDensity.relative 20).num_drops area ∧
    RainDensity.showering.num_drops area
      = (RainDensity.relative 50).num_drops area ∧
    RainDensity.sprinkling.num_drops area
      = (RainDensity.relative 100).num_drops area := by
  refine ⟨rfl, ?_, rfl, rfl, rfl, rfl⟩
  simp [RainDensity.num_drops, relativeNumDrops, wrap16, hs,
    Nat.mod_eq_of_lt hov]

/-- Witness for the amended C5 at a 10 × 10 surface with sparseness 7. -/
theorem density_resolution_witness :
    (RainDensity.absolute 3).num_drops ⟨10, 10⟩ = 3 ∧
    (RainDensity.relative 7).num_drops ⟨10, 10⟩ = 10 * 10 / 7 ∧
    (RainDensity.relative 0).num_drops ⟨10, 10⟩ = 0 ∧
    RainDensity.torrential.num_drops ⟨10, 10⟩
      = (RainDensity.relative 20).num_drops ⟨10, 10⟩ ∧
    RainDensity.showering.num_drops ⟨10, 10⟩
      = (RainDensity.relative 50).num_drops ⟨10, 10⟩ ∧
    RainDensity.sprinkling.num_drops ⟨10, 10⟩
      = (RainDensity.relative 100).num_drops ⟨10, 10⟩ :=
  density_resolution ⟨10, 10⟩ 3 7 (by decide) (by decide)

/-- Claim C7 is contradicted by the code: at the maximal drawn integer
`u64::MAX` the helper returns exactly `upper`, so its result is not in the
half-open range `[lower, upper)` that both the spec and the code's own doc
comment promise. -/
theorem uniform_attains_upper :
    uniform 18446744073709551615 0 1 = 1 ∧
      ¬ uniform 18446744073709551615 0 1 < 1 := by
  constructor
  · with_unfolding_all decide
  · with_unfolding_all decide

/-- Claim C2 is contradicted by the code: with density `Absolute{1}` and a
surface of height 0 (an input the spec declares valid: width ≥ 0, height ≥ 0),
`render` evaluates `rng.next_u64() % (area.height as u64)` with a zero
modulus and panics, modelled here by the frame computation returning
`none`. -/
theorem render_panics_at_height_zero :
    ((Rain.new_matrix 0).with_rain_density
      (RainDensity.absolute 1)).renderGlyphs ⟨10, 0⟩ = none := by
  with_unfolding_all rfl

theorem genTrackLens_ok (n : Nat) {h : Nat} (hh : 0 < h) :
    ∀ g : Pcg, ∃ p : List Nat × Pcg, genTrackLens n h g = some p ∧
      p.1.length = n ∧
      ∀ x ∈ p.1, h * 3 / 2 ≤ x ∧ x < h * 3 / 2 + h := by
  induction n with
  | zero => exact fun g => ⟨([], g), rfl, rfl, by simp⟩
  | succ n ih =>
    intro g
    obtain ⟨⟨ls, g2⟩, hgen, hlen, hbnd⟩ := ih (g.next).2
    refine ⟨((h * 3 / 2 + (g.next).1 % h) :: ls, g2), ?_, by simp [hlen], ?_⟩
    · simp only [genTrackLens, remChecked, if_neg (Nat.pos_iff_ne_zero.mp hh),
        hgen]
    · intro x hx
      rcases List.mem_cons.mp hx with rfl | hx2
      · exact ⟨Nat.le_add_right _ _,
          Nat.add_lt_add_left (Nat.mod_lt _ hh) _⟩
      · exact hbnd x hx2

/-- Counterexample to claim C6 as stated: at surface height 1 every drawn
track length equals `1 * 3 / 2 + r % 1 = 1`, and `1` is below the claimed
lower bound `1.5 · height = 3/2`, so the track length does not lie in
`[1.5·h, 2.5·h)`. -/
theorem track_length_band_counterexample :
    (((Rain.new_matrix 0).with_rain_density
        (RainDensity.absolute 1)).dropTrackLens ⟨10, 1⟩).map Prod.fst
      = some [1, 1] ∧
    ¬ ((3 : ℚ) / 2 * 1 ≤ (1 : ℚ)) := by
  constructor
  · with_unfolding_all rfl
  · with_unfolding_all decide

/-- Claim C6, amended: for height h > 0 the engine draws exactly
`numDrops * 2 mod 2^64` track lengths — the doubling is a usize
multiplication that wraps in release, so for every drop count below `2^63`
this is exactly `2 · numDrops` — each in the half-open integer band
`[⌊3h/2⌋, ⌊3h/2⌋ + h)`, which equals `[1.5·h, 2.5·h)` when `h` is even but
sits half a cell lower when `h` is odd. -/
theorem track_lengths_in_band (r : Rain) (area : Rect)
    (hh : 0 < area.height) :
    ∃ p : List Nat × Pcg, r.dropTrackLens area = some p ∧
      p.1.length = wrap64 (r.rain_density.num_drops area * 2) ∧
      ∀ x ∈ p.1, area.height * 3 / 2 ≤ x ∧
        x < area.height * 3 / 2 + area.height :=
  genTrackLens_ok _ hh _

/-- Witness for the amended C6: a surface of height 2, matrix defaults,
density `Absolute{1}`. -/
theorem track_lengths_in_band_witness :
    ∃ p : List Nat × Pcg,
      ((Rain.new_matrix 5).with_rain_density
        (RainDensity.absolute 1)).dropTrackLens ⟨4, 2⟩ = some p ∧
      p.1.length = wrap64 (((Rain.new_matrix 5).with_rain_density
        (RainDensity.absolute 1)).rain_density.num_drops ⟨4, 2⟩ * 2) ∧
      ∀ x ∈ p.1, 2 * 3 / 2 ≤ x ∧ x < 2 * 3 / 2 + 2 :=
  track_lengths_in_band _ _ (by decide)

/-- Claim C8: every glyph the engine produces satisfies
`0 ≤ column < width` and `0 ≤ row < height` (the lower bounds are inherent to
`Nat`): the column is a remainder by the width and rows at or beyond the
height are filtered out, never wrapped or accessed. -/
theorem glyph_bounds (r : Rain) (area : Rect) (gs : List Glyph) (g : Glyph)
    (hw : 0 < area.width) (hh : 0 < area.height)
    (hgs : r.renderGlyphs area = some gs) (hg : g ∈ gs) :
    g.x < area.width ∧ g.y < area.height := by
  obtain ⟨de, dgs, hbd, hgd⟩ := renderGlyphs_mem hgs hg
  obtain ⟨hy, trl, dl, k, hk⟩ := build_drop_mem hbd hgd
  obtain ⟨hx, hy2, _, _⟩ := glyphForOffset_some hk
  exact ⟨hx, hy2⟩

/-- Witness for C8: a concrete frame on a 2 × 2 surface whose first glyph is
in bounds. -/
theorem glyph_bounds_witness :
    (⟨0, 0, 0, 65396, ⟨some Color.white, some false, some false⟩⟩ : Glyph).x < 2 ∧
    (⟨0, 0, 0, 65396, ⟨some Color.white, some false, some false⟩⟩ : Glyph).y < 2 :=
  glyph_bounds
    (((Rain.new_matrix 3).with_rain_density
      (RainDensity.absolute 1)).with_rain_speed_variance 0) ⟨2, 2⟩
    [⟨0, 0, 0, 65396, ⟨some Color.white, some false, some false⟩⟩,
      ⟨0, 0, 0, 65406, ⟨some Color.white, some false, some false⟩⟩]
    _ (by decide) (by decide) (by with_unfolding_all rfl)
    (List.mem_cons_self _ _)

/-- Claim C9: no glyph emitted by `build_drop` has cycle number
`⌊(t + phaseOffset − age) / cyclePeriod⌋` equal to 0; such glyphs are
suppressed before reaching the surface. -/
theorem no_cycle_zero_glyph (cs : CharacterSet) (entropy : List Nat)
    (elapsed : ℚ) (w h : Nat) (s v tl ni : ℚ) (col : Color)
    (gs : List Glyph) (g : Glyph)
    (hgs : build_drop cs entropy elapsed w h s v tl ni col = some gs)
    (hg : g ∈ gs) :
    Rat.floor ((elapsed + initialCycleOffset entropy s v - g.age) /
      cycleTime entropy s v) ≠ 0 := by
  obtain ⟨hy, trl, dl, k, hk⟩ := build_drop_mem hgs hg
  obtain ⟨_, _, hage, hcyc⟩ := glyphForOffset_some hk
  rw [hage]
  exact f64toUsize_ne_zero_floor hcyc

/-- Witness for C9: a concrete one-cell drop at elapsed 5 s emits one glyph,
whose cycle number is nonzero. -/
theorem no_cycle_zero_glyph_witness :
    Rat.floor ((5 + initialCycleOffset [0] 1 0 -
        (⟨0, 0, 0, 102, ⟨some Color.white, some false, some false⟩⟩ : Glyph).age) /
      cycleTime [0] 1 0) ≠ 0 :=
  no_cycle_zero_glyph CharacterSet.lowercase [0] 5 1 1 1 0 1 1 Color.white
    [⟨0, 0, 0, 102, ⟨some Color.white, some false, some false⟩⟩] _
    (by with_unfolding_all rfl) (List.mem_cons_self _ _)

/-- Claim C4 is contradicted by the code: `with_character_set` stores an
empty explicit character list without any validation (construction is not
rejected), and rendering such a configuration panics — `options[seed % 0]`
— as soon as any glyph's character is computed (here: matrix defaults,
density `Absolute{1}`, 10 × 10 surface, elapsed 100 s). -/
theorem empty_charset_not_rejected_and_render_panics :
    ((Rain.new_matrix 100).with_character_set
        (CharacterSet.explicit [])).character_set = CharacterSet.explicit [] ∧
    (((Rain.new_matrix 100).with_rain_density
        (RainDensity.absolute 1)).with_character_set
        (CharacterSet.explicit [])).renderGlyphs ⟨10, 10⟩ = none :=
  ⟨rfl, by with_unfolding_all rfl⟩

/-- Claim C3 is contradicted by the code: at elapsed 7 s on a 1 × 4 surface
(matrix defaults, density `Absolute{1}`, variance 0) the cell (0, 0) receives
two glyphs with distinct ages 0 and 2/5 and distinct characters, and after
the ascending-by-age sort the sequential buffer writes leave the cell holding
the OLDEST glyph's character and style (65402, light green), not the
youngest's (65397, white) as the claim states. -/
theorem oldest_glyph_wins_collision :
    ((((Rain.new_matrix 7).with_rain_density
        (RainDensity.absolute 1)).with_rain_speed_variance 0).renderGlyphs
        ⟨1, 4⟩).map (fun gs =>
          (gs.filter (fun g => g.x == 0 && g.y == 0)).map
            (fun g => (g.age, g.content, g.style.fg)))
      = some [(0, 65397, some Color.white),
          (2 / 5, 65402, some Color.lightGreen)] ∧
    ((((Rain.new_matrix 7).with_rain_density
        (RainDensity.absolute 1)).with_rain_speed_variance 0).render
        ⟨1, 4⟩ emptyBuffer).map (fun b => ((b 0 0).content, (b 0 0).style.fg))
      = some (65402, some Color.lightGreen) ∧
    (0 : ℚ) < 2 / 5 ∧ (65397 : Nat) ≠ 65402 :=
  ⟨by with_unfolding_all rfl, by with_unfolding_all rfl,
    by with_unfolding_all decide, by decide⟩
